import Mathlib

/-!
Shallow embedding of the `uvt` crate (IamPhytan/uvt-rs) used to check the
natural-language specification against the source.

Conventions of the embedding:
- `Vec<u8>` buffers are `List Nat` with every entry intended below 256.
- Rust `String` values produced by the byte-level parsers are kept as their
  UTF-8 byte lists (`List Nat`); UTF-8 validity is checked by an executable
  recogniser mirroring `str::from_utf8`.
- `f32`/`f64` values read by the deserializers are carried as their raw
  little-endian bit patterns (`Nat`): none of the checked properties
  interprets them numerically.  The geometry component (`pose.rs`), which
  does compute with `f64`, is embedded separately over `ℝ`.
- A fallible Rust computation yields `RustResult`: a returned `Ok`, a
  returned `Err(io::Error)` of a given kind, or a `panic!` (which in Rust
  aborts instead of returning).
-/

namespace Uvt

/-- The `std::io::ErrorKind` values the crate constructs. -/
inductive ErrKind where
  | unexpectedEof
  | invalidData
  deriving DecidableEq, Repr

/-- Outcome of a fallible Rust computation: `ok` models `Ok`, `err` models a
returned `Err(io::Error)`, and `panicked` models a `panic!` (including
`unwrap`/`expect` on failures, out-of-bounds indexing, and division by
zero), carrying the panic message. -/
inductive RustResult (α : Type) where
  | ok (val : α)
  | err (kind : ErrKind)
  | panicked (msg : String)
  deriving DecidableEq, Repr

/-- Sequencing that models Rust's `?` operator: `ok` continues, `err` and
`panicked` propagate. -/
def RustResult.bind {α β : Type} : RustResult α → (α → RustResult β) → RustResult β
  | .ok a, f => f a
  | .err e, _ => .err e
  | .panicked m, _ => .panicked m

/-- Models calling `.unwrap()` on a `Result`: an `Err` becomes a panic. -/
def RustResult.unwrapped {α : Type} : RustResult α → RustResult α
  | .ok a => .ok a
  | .err _ => .panicked "called unwrap on an Err value"
  | .panicked m => .panicked m

/-- `deserialization.rs`: `MessageDataBuffer` — a byte buffer with a cursor. -/
structure MessageDataBuffer where
  data : List Nat
  position : Nat
  deriving DecidableEq, Repr

/-- `MessageDataBuffer::new`. -/
def MessageDataBuffer.new (data : List Nat) : MessageDataBuffer :=
  { data := data, position := 0 }

/-- `MessageDataBuffer::len`. -/
def MessageDataBuffer.len (b : MessageDataBuffer) : Nat :=
  b.data.length

/-- `MessageDataBuffer::seek`: `if position > self.data.len() { None } else
{ Some(self.data[position]) }`.  The indexing panics when
`position == data.len()`, which the guard (`>` rather than `>=`) lets
through; the model keeps that panic explicit. -/
def MessageDataBuffer.seek (b : MessageDataBuffer) (position : Nat) : RustResult (Option Nat) :=
  if position > b.data.length then .ok none
  else if h : position < b.data.length then .ok (some (b.data.get ⟨position, h⟩))
  else .panicked "index out of bounds"

/-- `MessageDataBuffer::slice`: on success returns the bytes
`data[position .. position+length]` and advances the cursor; `None` when
fewer than `length` bytes remain (cursor unchanged). -/
def MessageDataBuffer.slice (b : MessageDataBuffer) (length : Nat) :
    Option (List Nat × MessageDataBuffer) :=
  if b.position + length > b.data.length then none
  else some ((b.data.drop b.position).take length,
             { b with position := b.position + length })

/-- Value of a little-endian byte list, as computed by `uN::from_le_bytes`. -/
def leVal : List Nat → Nat
  | [] => 0
  | byte :: rest => byte + 256 * leVal rest

/-- The 4-byte little-endian encoding of a value below `2^32`. -/
def le32 (v : Nat) : List Nat :=
  [v % 256, v / 256 % 256, v / 256 ^ 2 % 256, v / 256 ^ 3 % 256]

/-- Two's-complement reading of a 32-bit pattern, as `i32::from_le_bytes`. -/
def toI32 (n : Nat) : Int :=
  if n < 2 ^ 31 then (n : Int) else (n : Int) - 2 ^ 32

/-- `MessageDataBuffer::read_u32_le`.  (The source's second failure arm, the
slice-to-array conversion, cannot fire: `slice` returns exactly 4 bytes.) -/
def MessageDataBuffer.read_u32_le (b : MessageDataBuffer) : RustResult (Nat × MessageDataBuffer) :=
  match b.slice 4 with
  | none => .err .unexpectedEof
  | some (bytes, b1) => .ok (leVal bytes, b1)

/-- `MessageDataBuffer::read_i32_le`. -/
def MessageDataBuffer.read_i32_le (b : MessageDataBuffer) : RustResult (Int × MessageDataBuffer) :=
  match b.slice 4 with
  | none => .err .unexpectedEof
  | some (bytes, b1) => .ok (toI32 (leVal bytes), b1)

/-- `MessageDataBuffer::read_byte`. -/
def MessageDataBuffer.read_byte (b : MessageDataBuffer) : RustResult (Nat × MessageDataBuffer) :=
  match b.slice 1 with
  | none => .err .unexpectedEof
  | some (bytes, b1) => .ok (bytes.headI, b1)

/-- `MessageDataBuffer::read_f32_le`; the `f32` is carried as its raw 32-bit
little-endian pattern. -/
def MessageDataBuffer.read_f32_le (b : MessageDataBuffer) : RustResult (Nat × MessageDataBuffer) :=
  match b.slice 4 with
  | none => .err .unexpectedEof
  | some (bytes, b1) => .ok (leVal bytes, b1)

/-- `MessageDataBuffer::read_f64_le`; the `f64` is carried as its raw 64-bit
little-endian pattern. -/
def MessageDataBuffer.read_f64_le (b : MessageDataBuffer) : RustResult (Nat × MessageDataBuffer) :=
  match b.slice 8 with
  | none => .err .unexpectedEof
  | some (bytes, b1) => .ok (leVal bytes, b1)

/-- Whether a byte is a UTF-8 continuation byte (`0x80..=0xBF`). -/
def utf8Cont (b : Nat) : Bool :=
  0x80 ≤ b && b ≤ 0xBF

/-- Shape of a UTF-8 sequence led by `b0`: number of continuation bytes and
the admissible range of the first one (per RFC 3629, as enforced by
`str::from_utf8`); `none` for an invalid lead byte. -/
def utf8Lead (b0 : Nat) : Option (Nat × Nat × Nat) :=
  if b0 ≤ 0x7F then some (0, 0, 0)
  else if 0xC2 ≤ b0 && b0 ≤ 0xDF then some (1, 0x80, 0xBF)
  else if b0 = 0xE0 then some (2, 0xA0, 0xBF)
  else if (0xE1 ≤ b0 && b0 ≤ 0xEC) || b0 = 0xEE || b0 = 0xEF then some (2, 0x80, 0xBF)
  else if b0 = 0xED then some (2, 0x80, 0x9F)
  else if b0 = 0xF0 then some (3, 0x90, 0xBF)
  else if 0xF1 ≤ b0 && b0 ≤ 0xF3 then some (3, 0x80, 0xBF)
  else if b0 = 0xF4 then some (3, 0x80, 0x8F)
  else none

/-- Body of the UTF-8 recogniser; the fuel only drives structural
termination and any fuel at least the list length gives the same answer,
since every step consumes at least one byte. -/
def validUtf8Fuel : Nat → List Nat → Bool
  | _, [] => true
  | 0, _ :: _ => false
  | fuel + 1, b0 :: tail =>
    match utf8Lead b0 with
    | none => false
    | some (k, lo, hi) =>
      match k, tail with
      | 0, _ => validUtf8Fuel fuel tail
      | 1, c1 :: t => (lo ≤ c1 && c1 ≤ hi) && validUtf8Fuel fuel t
      | 2, c1 :: c2 :: t => (lo ≤ c1 && c1 ≤ hi) && utf8Cont c2 && validUtf8Fuel fuel t
      | 3, c1 :: c2 :: c3 :: t =>
        (lo ≤ c1 && c1 ≤ hi) && utf8Cont c2 && utf8Cont c3 && validUtf8Fuel fuel t
      | _, _ => false

/-- Executable recogniser of valid UTF-8, mirroring `str::from_utf8`. -/
def validUtf8 (l : List Nat) : Bool :=
  validUtf8Fuel l.length l

/-- `MessageDataBuffer::read_lp_string`: 4-byte little-endian length, then
that many bytes, UTF-8 checked.  The string is kept as its byte list. -/
def MessageDataBuffer.read_lp_string (b : MessageDataBuffer) :
    RustResult (List Nat × MessageDataBuffer) :=
  (b.read_u32_le).bind fun sb =>
    match sb.2.slice sb.1 with
    | none => .err .unexpectedEof
    | some (bytes, b2) =>
      if validUtf8 bytes then .ok (bytes, b2) else .err .invalidData

/-- Rust's `trim_end_matches("\0")` on the byte list of a string: removes
every trailing NUL byte. -/
def trimNulEnd (s : List Nat) : List Nat :=
  (s.reverse.dropWhile (· == 0)).reverse

/-- Spec-side trimming for the refinement comparison of claim C1: the spec
says `read_lp_string_aligned` trims "a single trailing `\0`", i.e. removes
exactly one final NUL byte when one is present. -/
def trimSingleNulSpec (s : List Nat) : List Nat :=
  if s.getLast? = some 0 then s.dropLast else s

/-- `pose.rs`: `Time { sec: i32, nanosec: u32 }`. -/
structure Time where
  sec : Int
  nanosec : Nat
  deriving DecidableEq, Repr

/-- `pose.rs`: `Header { seq, stamp, frame_id }`; the frame string is kept
as its UTF-8 byte list. -/
structure Header where
  seq : Nat
  stamp : Time
  frame_id : List Nat
  deriving DecidableEq, Repr

/-- `pointcloud.rs`: the `DataType` tag of a point field. -/
inductive DataType where
  | INT8
  | UINT8
  | INT16
  | UINT16
  | INT32
  | UINT32
  | FLOAT32
  | FLOAT64
  deriving DecidableEq, Repr

/-- `impl From<u8> for DataType`: bytes `1..=8` map to the tags; any other
byte runs `panic!("Unknown byte value")`. -/
def dataTypeFromByte (byte : Nat) : RustResult DataType :=
  match byte with
  | 1 => .ok .INT8
  | 2 => .ok .UINT8
  | 3 => .ok .INT16
  | 4 => .ok .UINT16
  | 5 => .ok .INT32
  | 6 => .ok .UINT32
  | 7 => .ok .FLOAT32
  | 8 => .ok .FLOAT64
  | _ => .panicked "Unknown byte value"

/-- `pointcloud.rs`: `PointField`. -/
structure PointField where
  name : List Nat
  offset : Nat
  datatype : DataType
  count : Nat
  deriving DecidableEq, Repr

/-- `pointcloud.rs`: `PointCloud2`. -/
structure PointCloud2 where
  header : Header
  height : Nat
  width : Nat
  fields : List PointField
  is_bigendian : Bool
  point_step : Nat
  row_step : Nat
  data : List Nat
  is_dense : Bool
  deriving DecidableEq, Repr

/-- `PointCloud2::len`. -/
def PointCloud2.dataLen (pc : PointCloud2) : Nat :=
  pc.data.length

/-- `PointCloud2::n_points`: `self.len() / (self.point_step as usize)`.
Rust's `/` on `usize` panics when the divisor is zero; the model keeps that
panic explicit. -/
def PointCloud2.n_points (pc : PointCloud2) : RustResult Nat :=
  if pc.point_step = 0 then .panicked "attempt to divide by zero"
  else .ok (pc.data.length / pc.point_step)

/-- One field of one point inside `PointCloud2::points`: `FLOAT32` fields
read 4 bytes via `read_f32_le().unwrap()`; every other datatype runs
`panic!("Unsupported datatype")`. -/
def readPointValue (dt : DataType) (buf : MessageDataBuffer) :
    RustResult (Nat × MessageDataBuffer) :=
  match dt with
  | .FLOAT32 => (buf.read_f32_le).unwrapped
  | _ => .panicked "Unsupported datatype"

/-- `HashMap::insert` semantics on the association-list model of the
per-point map: replace the value of an existing key, else append. -/
def hashInsert (m : List (List Nat × Nat)) (k : List Nat) (v : Nat) :
    List (List Nat × Nat) :=
  if m.any (fun p => p.1 == k) then
    m.map (fun p => if p.1 == k then (k, v) else p)
  else m ++ [(k, v)]

/-- `HashMap` indexing `map[key]`, which panics when the key is absent. -/
def hashGet (m : List (List Nat × Nat)) (k : List Nat) : RustResult Nat :=
  match m.find? (fun p => p.1 == k) with
  | some p => .ok p.2
  | none => .panicked "key not found"

/-- The inner field loop of `PointCloud2::points`: reading one point means
reading each field in declaration order from the shared buffer. -/
def pointFromFields : List PointField → List (List Nat × Nat) → MessageDataBuffer →
    RustResult (List (List Nat × Nat) × MessageDataBuffer)
  | [], acc, buf => .ok (acc, buf)
  | f :: fs, acc, buf =>
    (readPointValue f.datatype buf).bind fun vb =>
      pointFromFields fs (hashInsert acc f.name vb.1) vb.2

/-- The outer loop of `PointCloud2::points` over `0..n_points`. -/
def pointsLoop (fields : List PointField) :
    Nat → MessageDataBuffer → RustResult (List (List (List Nat × Nat)) × MessageDataBuffer)
  | 0, buf => .ok ([], buf)
  | n + 1, buf =>
    (pointFromFields fields [] buf).bind fun pb =>
      (pointsLoop fields n pb.2).bind fun psb =>
        .ok (pb.1 :: psb.1, psb.2)

/-- `PointCloud2::points`: deserializes `data` into one map per point.  The
values are raw `f32` bit patterns (see the header comment). -/
def PointCloud2.points (pc : PointCloud2) : RustResult (List (List (List Nat × Nat))) :=
  (pc.n_points).bind fun n =>
    (pointsLoop pc.fields n (MessageDataBuffer.new pc.data)).bind fun psb =>
      .ok psb.1

/-- Looks up the `"x"`, `"y"`, `"z"` entries of one point map, panicking on a
missing key — the body of `impl Into<Vec<Point>> for PointCloud2`.  The
`as f64` casts are value-preserving, so the raw patterns are kept. -/
def pointXyz (m : List (List Nat × Nat)) : RustResult (Nat × Nat × Nat) :=
  (hashGet m [0x78]).bind fun x =>
    (hashGet m [0x79]).bind fun y =>
      (hashGet m [0x7A]).bind fun z =>
        .ok (x, y, z)

/-- Collects a list of results, stopping at the first failure, as a
`collect::<Result<Vec<_>, _>>` or a sequential loop of fallible steps. -/
def collectResults {α : Type} : List (RustResult α) → RustResult (List α)
  | [] => .ok []
  | r :: rs =>
    r.bind fun a => (collectResults rs).bind fun l => .ok (a :: l)

/-- `impl Into<Vec<pose::Point>> for PointCloud2`. -/
def PointCloud2.intoPoints (pc : PointCloud2) : RustResult (List (Nat × Nat × Nat)) :=
  (pc.points).bind fun pts => collectResults (pts.map pointXyz)

/-- `bag.rs`: `BufferReader::read_header` for `BagDeserializer` — reads
`seq : u32`, `sec : i32`, `nsec : u32`, `frame_id : lp_string`. -/
def BagDeserializer.read_header (b : MessageDataBuffer) :
    RustResult (Header × MessageDataBuffer) :=
  (b.read_u32_le).bind fun sq =>
    (sq.2.read_i32_le).bind fun sc =>
      (sc.2.read_u32_le).bind fun ns =>
        (ns.2.read_lp_string).bind fun fi =>
          .ok ({ seq := sq.1, stamp := { sec := sc.1, nanosec := ns.1 },
                 frame_id := fi.1 }, fi.2)

/-- `bag.rs`: `PointCloud2Deserializer::read_point_field` for the Bag
backend — unaligned `lp_string`, `u32` offset, datatype byte, `u32` count. -/
def BagDeserializer.read_point_field (b : MessageDataBuffer) :
    RustResult (PointField × MessageDataBuffer) :=
  (b.read_lp_string).bind fun nm =>
    (nm.2.read_u32_le).bind fun off =>
      (off.2.read_byte).bind fun dtb =>
        (dataTypeFromByte dtb.1).bind fun dt =>
          (dtb.2.read_u32_le).bind fun cnt =>
            .ok ({ name := nm.1, offset := off.1, datatype := dt, count := cnt.1 }, cnt.2)

/-- The `(0..n_fields).map(read_point_field).collect()` loop shared by both
backends, instantiated with the backend's field reader. -/
def readPointFieldsLoop
    (readField : MessageDataBuffer → RustResult (PointField × MessageDataBuffer)) :
    Nat → MessageDataBuffer → RustResult (List PointField × MessageDataBuffer)
  | 0, b => .ok ([], b)
  | n + 1, b =>
    (readField b).bind fun fb =>
      (readPointFieldsLoop readField n fb.2).bind fun fsb =>
        .ok (fb.1 :: fsb.1, fsb.2)

/-- `bag.rs`: `read_point_fields` — a `u32` count followed by that many
point fields. -/
def BagDeserializer.read_point_fields (b : MessageDataBuffer) :
    RustResult (List PointField × MessageDataBuffer) :=
  (b.read_u32_le).bind fun n =>
    readPointFieldsLoop BagDeserializer.read_point_field n.1 n.2

/-- `bag.rs`: `read_data` — a `u32` byte count then that many raw bytes. -/
def BagDeserializer.read_data (b : MessageDataBuffer) :
    RustResult (List Nat × MessageDataBuffer) :=
  (b.read_u32_le).bind fun n =>
    match n.2.slice n.1 with
    | none => .err .unexpectedEof
    | some (d, b2) => .ok (d, b2)

/-- Modelled from the spec: the Bag backend's `read_lp_string_aligned` is
called by the shared parsers (`trajectory.rs` line 28) but neither the
`BufferReader` trait declaration (`deserialization.rs` 205-212) nor
`bag.rs` defines it under `src/`; §4.3 of the spec says the `*_aligned`
variants ignore the alignment argument and behave identically to the
unaligned forms. -/
def BagDeserializer.read_lp_string_aligned (next_alignment : Nat) (b : MessageDataBuffer) :
    RustResult (List Nat × MessageDataBuffer) :=
  b.read_lp_string

/-- Modelled from the spec: the Bag backend's `read_u8_aligned` (named
`read_byte_aligned` in the MCAP source), absent from `src/`; per §4.3 it
ignores the alignment argument and equals the unaligned byte read. -/
def BagDeserializer.read_byte_aligned (next_alignment : Nat) (b : MessageDataBuffer) :
    RustResult (Nat × MessageDataBuffer) :=
  b.read_byte

/-- `mcap.rs`: `read_byte_aligned` — one byte, then
`(next_alignment - (1 % next_alignment)) % next_alignment` pad bytes; a pad
`slice` failure is discarded (`let _ = ...`).  `x % 0` panics in Rust, so a
zero alignment panics after the byte is read. -/
def McapDeserializer.read_byte_aligned (next_alignment : Nat) (b : MessageDataBuffer) :
    RustResult (Nat × MessageDataBuffer) :=
  (b.read_byte).bind fun vb =>
    if next_alignment = 0 then .panicked "attempt to calculate the remainder with a divisor of zero"
    else
      let padding := (next_alignment - 1 % next_alignment) % next_alignment
      let b2 := if padding > 0 then
          match vb.2.slice padding with
          | some sb => sb.2
          | none => vb.2
        else vb.2
      .ok (vb.1, b2)

/-- `mcap.rs`: `read_lp_string_aligned` — a raw `lp_string`, then
`trim_end_matches("\0")` on the decoded string, then
`(next_alignment - (strlen % next_alignment)) % next_alignment` pad bytes
computed from the untrimmed byte length; a pad `slice` failure is
discarded. -/
def McapDeserializer.read_lp_string_aligned (next_alignment : Nat) (b : MessageDataBuffer) :
    RustResult (List Nat × MessageDataBuffer) :=
  (b.read_lp_string).bind fun sb =>
    let strdata := trimNulEnd sb.1
    if next_alignment = 0 then .panicked "attempt to calculate the remainder with a divisor of zero"
    else
      let strlen := sb.1.length
      let padding := (next_alignment - strlen % next_alignment) % next_alignment
      let b2 := if padding > 0 then
          match sb.2.slice padding with
          | some pb => pb.2
          | none => sb.2
        else sb.2
      .ok (strdata, b2)

/-- `mcap.rs`: `read_header` — discards the 4-byte CDR prologue (ignoring a
read failure), then `sec : i32`, `nsec : u32`, `frame_id` aligned to 4;
`seq` is fixed to 0. -/
def McapDeserializer.read_header (b : MessageDataBuffer) :
    RustResult (Header × MessageDataBuffer) :=
  let b0 := match b.read_u32_le with
    | .ok pb => pb.2
    | _ => b
  (b0.read_i32_le).bind fun sc =>
    (sc.2.read_u32_le).bind fun ns =>
      (McapDeserializer.read_lp_string_aligned 4 ns.2).bind fun fi =>
        .ok ({ seq := 0, stamp := { sec := sc.1, nanosec := ns.1 },
               frame_id := fi.1 }, fi.2)

/-- `mcap.rs`: `read_point_field` — aligned name, `u32` offset, aligned
datatype byte, `u32` count. -/
def McapDeserializer.read_point_field (b : MessageDataBuffer) :
    RustResult (PointField × MessageDataBuffer) :=
  (McapDeserializer.read_lp_string_aligned 4 b).bind fun nm =>
    (nm.2.read_u32_le).bind fun off =>
      (McapDeserializer.read_byte_aligned 4 off.2).bind fun dtb =>
        (dataTypeFromByte dtb.1).bind fun dt =>
          (dtb.2.read_u32_le).bind fun cnt =>
            .ok ({ name := nm.1, offset := off.1, datatype := dt, count := cnt.1 }, cnt.2)

/-- `mcap.rs`: `read_point_fields`. -/
def McapDeserializer.read_point_fields (b : MessageDataBuffer) :
    RustResult (List PointField × MessageDataBuffer) :=
  (b.read_u32_le).bind fun n =>
    readPointFieldsLoop McapDeserializer.read_point_field n.1 n.2

/-- `mcap.rs`: `read_data` — identical to the Bag form. -/
def McapDeserializer.read_data (b : MessageDataBuffer) :
    RustResult (List Nat × MessageDataBuffer) :=
  (b.read_u32_le).bind fun n =>
    match n.2.slice n.1 with
    | none => .err .unexpectedEof
    | some (d, b2) => .ok (d, b2)

/-- Modelled from the spec: `pointcloud::parse_pointcloud`, the
backend-generic point-cloud parser called from `lib.rs`, is not under
`src/` (only the backend implementations it dispatches to are); §4.5 gives
its step order — header, height, width, fields, is_bigendian, point_step,
row_step, data, is_dense.  This is its instantiation at the Bag backend,
whose every step is the `src/` implementation from `bag.rs` (the aligned
byte read of steps 4 and 7 is the Bag no-op passthrough, i.e. a plain byte
read; the inline Bag parser `impl From<Vec<u8>> for PointCloud2` in
`pointcloud.rs` reads the same sequence). -/
def bagParsePointcloud (msg : List Nat) : RustResult PointCloud2 :=
  (BagDeserializer.read_header (MessageDataBuffer.new msg)).bind fun hd =>
    (hd.2.read_u32_le).bind fun ht =>
      (ht.2.read_u32_le).bind fun wd =>
        (BagDeserializer.read_point_fields wd.2).bind fun fs =>
          (fs.2.read_byte).bind fun be =>
            (be.2.read_u32_le).bind fun ps =>
              (ps.2.read_u32_le).bind fun rs =>
                (BagDeserializer.read_data rs.2).bind fun dt =>
                  (dt.2.read_byte).bind fun dn =>
                    .ok { header := hd.1, height := ht.1, width := wd.1,
                          fields := fs.1, is_bigendian := be.1 = 1,
                          point_step := ps.1, row_step := rs.1,
                          data := dt.1, is_dense := dn.1 = 1 }

/-- Modelled from the spec (§4.5), as `bagParsePointcloud`: the generic
parser instantiated at the MCAP backend, every step being the `src/`
implementation from `mcap.rs`. -/
def mcapParsePointcloud (msg : List Nat) : RustResult PointCloud2 :=
  (McapDeserializer.read_header (MessageDataBuffer.new msg)).bind fun hd =>
    (hd.2.read_u32_le).bind fun ht =>
      (ht.2.read_u32_le).bind fun wd =>
        (McapDeserializer.read_point_fields wd.2).bind fun fs =>
          (McapDeserializer.read_byte_aligned 4 fs.2).bind fun be =>
            (be.2.read_u32_le).bind fun ps =>
              (ps.2.read_u32_le).bind fun rs =>
                (McapDeserializer.read_data rs.2).bind fun dt =>
                  (McapDeserializer.read_byte_aligned 4 dt.2).bind fun dn =>
                    .ok { header := hd.1, height := ht.1, width := wd.1,
                          fields := fs.1, is_bigendian := be.1 = 1,
                          point_step := ps.1, row_step := rs.1,
                          data := dt.1, is_dense := dn.1 = 1 }

/-- Result of `trajectory.rs`'s `parse_trajectory`: the header and the pose,
with the seven `f64` components kept as raw 64-bit patterns. -/
structure PoseStampedRaw where
  header : Header
  position : Nat × Nat × Nat
  orientation : Nat × Nat × Nat × Nat
  deriving DecidableEq, Repr

/-- `read_covariance` of either backend: 36 little-endian `f64` reads. -/
def readF64Run : Nat → MessageDataBuffer → RustResult (List Nat × MessageDataBuffer)
  | 0, b => .ok ([], b)
  | n + 1, b =>
    (b.read_f64_le).bind fun vb =>
      (readF64Run n vb.2).bind fun rb =>
        .ok (vb.1 :: rb.1, rb.2)

/-- `read_position` of either backend: three `f64` reads. -/
def readPositionRaw (b : MessageDataBuffer) :
    RustResult ((Nat × Nat × Nat) × MessageDataBuffer) :=
  (b.read_f64_le).bind fun x =>
    (x.2.read_f64_le).bind fun y =>
      (y.2.read_f64_le).bind fun z =>
        .ok ((x.1, y.1, z.1), z.2)

/-- `read_orientation` of either backend: four `f64` reads in x, y, z, w
order. -/
def readOrientationRaw (b : MessageDataBuffer) :
    RustResult ((Nat × Nat × Nat × Nat) × MessageDataBuffer) :=
  (b.read_f64_le).bind fun x =>
    (x.2.read_f64_le).bind fun y =>
      (y.2.read_f64_le).bind fun z =>
        (z.2.read_f64_le).bind fun w =>
          .ok ((x.1, y.1, z.1, w.1), w.2)

/-- `trajectory.rs`: `parse_trajectory` instantiated at the MCAP backend —
header, child frame aligned to 8 (discarded), position, orientation, pose
covariance (36 `f64`, discarded), two twist vectors and the twist
covariance (discarded). -/
def mcapParseTrajectory (msg : List Nat) : RustResult PoseStampedRaw :=
  (McapDeserializer.read_header (MessageDataBuffer.new msg)).bind fun hd =>
    (McapDeserializer.read_lp_string_aligned 8 hd.2).bind fun cf =>
      (readPositionRaw cf.2).bind fun pos =>
        (readOrientationRaw pos.2).bind fun ori =>
          (readF64Run 36 ori.2).bind fun pcov =>
            (readF64Run 3 pcov.2).bind fun tl =>
              (readF64Run 3 tl.2).bind fun ta =>
                (readF64Run 36 ta.2).bind fun tcov =>
                  .ok { header := hd.1, position := pos.1, orientation := ori.1 }

/-- A decoded connection record of the external `rosbag` crate's index
(modelled from the spec's container description; the crate itself is an
external collaborator that hands the core already-framed records). -/
structure Connection where
  topic : String
  id : Nat
  deriving DecidableEq, Repr

/-- A decoded message-data record inside a Bag chunk. -/
structure BagMessageData where
  conn_id : Nat
  data : List Nat
  deriving DecidableEq, Repr

/-- The decoded view of a Bag container: its index connections and its
chunked message records, in file order. -/
structure BagFile where
  connections : List Connection
  chunks : List (List BagMessageData)
  deriving DecidableEq, Repr

/-- `lib.rs`: `Uvt::retrieve_topic_messages` — filters the index for
connections on `topic`, takes `topic_conns[0].id` (an out-of-bounds panic
when no connection matches), then collects the data of every chunk message
carrying that connection id, in wire order. -/
def retrieveTopicMessages (bag : BagFile) (topic : String) : RustResult (List (List Nat)) :=
  let topic_conns := bag.connections.filter (fun c => c.topic == topic)
  match topic_conns with
  | [] => .panicked "index out of bounds"
  | c :: _ =>
    .ok ((bag.chunks.map (fun chunk =>
      (chunk.filter (fun m => m.conn_id == c.id)).map (fun m => m.data))).flatten)

/-- A decoded message of the external `mcap` crate's message stream, with
the topic of its channel. -/
structure McapMessage where
  topic : String
  data : List Nat
  deriving DecidableEq, Repr

/-- `lib.rs`: `Uvt::retrieve_mcap_topic_messages` — keeps the data of every
stream message whose channel topic equals `topic`; an empty result is
returned as an empty vector, not an error. -/
def retrieveMcapTopicMessages (msgs : List McapMessage) (topic : String) : List (List Nat) :=
  (msgs.filter (fun m => m.topic == topic)).map (fun m => m.data)

/-- `lib.rs`: `Uvt::read_mcap` after the memory-mapped stream is decoded —
retrieves both topics, parses every map message (`.unwrap()`) and every
trajectory message (`.unwrap()`), converts each cloud to points, and
selects the last point cloud via `pointclouds[pointclouds.len() - 1]`,
which panics when the list is empty.  The surrounding VTK assembly is the
external `vtkio` collaborator and is value-preserving on the selected
triples, so the model returns the selected triples and the trajectory. -/
def readMcapModel (msgs : List McapMessage) (map_topic traj_topic : String) :
    RustResult (List (Nat × Nat × Nat) × List PoseStampedRaw) :=
  let map_msgs := retrieveMcapTopicMessages msgs map_topic
  let traj_msgs := retrieveMcapTopicMessages msgs traj_topic
  (collectResults (map_msgs.map (fun m => (mcapParsePointcloud m).unwrapped))).bind fun maps =>
    (collectResults (traj_msgs.map (fun m => (mcapParseTrajectory m).unwrapped))).bind fun traj =>
      (collectResults (maps.map (fun pc => pc.intoPoints))).bind fun pointclouds =>
        match pointclouds.getLast? with
        | none => .panicked "attempt to subtract with overflow"
        | some lastPts => .ok (lastPts, traj)

/-!
The UVT text codec of `lib.rs` (`Uvt::read_file`).  Rust string slices are
modelled as `List Char`, so that the byte-position splitting of
`content.find` / slicing is plain structural list search.
-/

/-- The `TRAJ_DELIM` constant: 29 `#` characters. -/
def TRAJ_DELIM : List Char :=
  List.replicate 29 '#'

/-- Whether a character is trimmed by Rust's `str::trim` (the files at hand
are ASCII; the ASCII whitespace set suffices). -/
def isTrimWs (c : Char) : Bool :=
  c == ' ' || c == '\t' || c == '\n' || c == '\r'

/-- Rust `str::trim` on the character-list model. -/
def trimChars (s : List Char) : List Char :=
  ((s.dropWhile isTrimWs).reverse.dropWhile isTrimWs).reverse

/-- Splits at the first occurrence of `delim`, as `content.find(delim)`
followed by slicing before and after it: `none` when absent. -/
def splitFirst (delim : List Char) : List Char → Option (List Char × List Char)
  | [] => if delim = [] then some ([], []) else none
  | c :: rest =>
    if delim.isPrefixOf (c :: rest) then some ([], (c :: rest).drop delim.length)
    else (splitFirst delim rest).map (fun p => (c :: p.1, p.2))

/-- Splits a character list on a separator character, keeping empty
segments — the semantics of Rust `str::split(char)`. -/
def splitChar (sep : Char) : List Char → List (List Char)
  | [] => [[]]
  | c :: rest =>
    let segs := splitChar sep rest
    if c == sep then [] :: segs
    else
      match segs with
      | [] => [[c]]
      | s :: ss => (c :: s) :: ss

/-- Rust `str::lines`: split on `'\n'`, drop one final empty segment (a
trailing newline yields no extra line), and strip one trailing `'\r'` per
line. -/
def rustLines (s : List Char) : List (List Char) :=
  let segs := splitChar '\n' s
  let segs := if segs.getLast? = some [] then segs.dropLast else segs
  segs.map (fun l => if l.getLast? = some '\r' then l.dropLast else l)

/-- Rust `str::split_once(sep)`: the parts before and after the first
occurrence of the separator, `none` when it is absent. -/
def splitOnceChar (sep : Char) : List Char → Option (List Char × List Char)
  | [] => none
  | c :: rest =>
    if c == sep then some ([], rest)
    else (splitOnceChar sep rest).map (fun p => (c :: p.1, p.2))

/-- Numeric value of a digit run, most significant first. -/
def digitsVal (ds : List Char) : Nat :=
  ds.foldl (fun acc c => acc * 10 + (c.toNat - 48)) 0

/-- Whether a character is an ASCII digit. -/
def digitChar (c : Char) : Bool :=
  48 ≤ c.toNat && c.toNat ≤ 57

/-- Splits an optional leading sign: `(negative, rest)`. -/
def splitSign (s : List Char) : Bool × List Char :=
  match s with
  | c :: t => if c == '-' then (true, t) else if c == '+' then (false, t) else (false, c :: t)
  | [] => (false, [])

/-- Parses the significand `digits [. digits]` of a float literal: the
mantissa as an integer, the count of fractional digits, and the unconsumed
rest; `none` when no digit is present. -/
def splitSignificand (cs : List Char) : Option (Nat × Nat × List Char) :=
  let ip := cs.takeWhile digitChar
  let cs2 := cs.dropWhile digitChar
  match cs2 with
  | c :: cs3 =>
    if c == '.' then
      let fp := cs3.takeWhile digitChar
      let cs4 := cs3.dropWhile digitChar
      if ip.isEmpty && fp.isEmpty then none
      else some (digitsVal ip * 10 ^ fp.length + digitsVal fp, fp.length, cs4)
    else if ip.isEmpty then none else some (digitsVal ip, 0, cs2)
  | [] => if ip.isEmpty then none else some (digitsVal ip, 0, [])

/-- Parses the optional exponent suffix: `(exponent negative, exponent)`;
an empty suffix is exponent 0 and anything else malformed. -/
def parseExpSuffix : List Char → Option (Bool × Nat)
  | [] => some (false, 0)
  | e :: rest =>
    if e == 'e' || e == 'E' then
      let se := splitSign rest
      if se.2 ≠ [] ∧ se.2.all digitChar then some (se.1, digitsVal se.2) else none
    else none

/-- Models `str::parse::<f64>()` on the decimal literals the codec emits and
consumes, with the parsed value kept exact as a rational (built through
`mkRat` from the sign, integer mantissa, fractional length and exponent).
The grammar is the significand-plus-exponent core of the Rust float
grammar; `inf`/`nan` forms are outside the model, and no checked property
involves them. -/
def parseF64 (s : List Char) : Option ℚ :=
  let sn := splitSign s
  match splitSignificand sn.2 with
  | none => none
  | some (mant, fracCount, rest) =>
    match parseExpSuffix rest with
    | none => none
    | some (negExp, e) =>
      let num : Nat := if negExp then mant else mant * 10 ^ e
      let den : Nat := if negExp then 10 ^ fracCount * 10 ^ e else 10 ^ fracCount
      some (mkRat (if sn.1 then -(num : Int) else (num : Int)) den)

/-- A six-degrees-of-freedom tuple `(x, y, z, roll, pitch, yaw)` of exact
rationals, the argument shape of `Pose::from_6dof`. -/
structure SixDof where
  x : ℚ
  y : ℚ
  z : ℚ
  roll : ℚ
  pitch : ℚ
  yaw : ℚ
  deriving DecidableEq

/-- The result of `Uvt::read_file` up to the `Pose::from_6dof` call: the
trimmed map-blob characters (handed opaquely to the external VTK parser,
per §4.7 the blob is never interpreted here), the trimmed frame id, and per
trajectory line the header sequence number `i + 2` with the six parsed
values that feed `from_6dof`. -/
structure UvtParsed where
  map_blob : List Char
  frame_id : List Char
  poses : List (Nat × SixDof)
  deriving DecidableEq

/-- Collects a list of optional values, `none` when any is missing — the
failure-or-all shape of collecting parses before the length test. -/
def collectOptions {α : Type} : List (Option α) → Option (List α)
  | [] => some []
  | none :: _ => none
  | some a :: rest => (collectOptions rest).map (fun l => a :: l)

/-- The per-line loop of `read_file`: split on commas, parse every value
(`unwrap_or_else` panics with the 1-based block line index `i + 2`), then
require exactly six values (else panic with the same index).  The source's
panic messages additionally append the offending line text; the model keeps
the prefix up to the counts, which carries the index the claims are about. -/
def parsePoseLines : Nat → List (List Char) →
    RustResult (List (Nat × SixDof))
  | _, [] => .ok []
  | i, line :: restLines =>
    let pieces := splitChar ',' line
    match collectOptions (pieces.map (fun p => parseF64 (trimChars p))) with
    | none => .panicked ("Failed to parse floats in line " ++ toString (i + 2))
    | some values =>
      match values with
      | [a, b, c, d, e, f] =>
        (parsePoseLines (i + 1) restLines).bind fun tl =>
          .ok ((i + 2, SixDof.mk a b c d e f) :: tl)
      | _ =>
        .panicked ("Line " ++ toString (i + 2) ++ ": expected 6 values, got "
          ++ toString values.length)

/-- `lib.rs`: `Uvt::read_file` on already-loaded file content.  The
delimiter search failure is the one genuinely returned error
(`ok_or(...)?` with `InvalidData`); the frame-line `unwrap`/`expect` and
the trajectory-line failures are panics.  The external
`Vtk::parse_legacy_be` call is modelled from the spec as an opaque success
carrying the trimmed blob (§1, §4.7: the map payload is delegated and
stored opaquely). -/
def uvtReadContent (content : List Char) : RustResult UvtParsed :=
  match splitFirst TRAJ_DELIM content with
  | none => .err .invalidData
  | some (before, after) =>
    let vtk_str := trimChars before
    let traj_str := trimChars after
    match rustLines traj_str with
    | [] => .panicked "called Option unwrap on a None value"
    | frameLine :: poseLines =>
      match splitOnceChar ':' frameLine with
      | none => .panicked "Expected frame_id line"
      | some pr =>
        let frame_id := trimChars pr.2
        (parsePoseLines 0 poseLines).bind fun poses =>
          .ok { map_blob := vtk_str, frame_id := frame_id, poses := poses }

/-!
The geometry component (`pose.rs`).  Its `f64` arithmetic is embedded over
`ℝ`, the standard idealisation for floating-point-valued algebra; the
definitions follow the source formulas literally.
-/

/-- `pose.rs`: `Quaternion { x, y, z, w : f64 }`, Hamilton convention. -/
structure Quaternion where
  x : ℝ
  y : ℝ
  z : ℝ
  w : ℝ

/-- `Quaternion::square_len`: `w*w + x*x + y*y + z*z`. -/
noncomputable def Quaternion.square_len (q : Quaternion) : ℝ :=
  q.w * q.w + q.x * q.x + q.y * q.y + q.z * q.z

/-- `Quaternion::norm`: the square root of `square_len`. -/
noncomputable def Quaternion.norm (q : Quaternion) : ℝ :=
  Real.sqrt q.square_len

/-- `Quaternion::conjugate`: negates the vector part, preserves `w`. -/
def Quaternion.conjugate (q : Quaternion) : Quaternion :=
  { w := q.w, x := -q.x, y := -q.y, z := -q.z }

/-- `impl Mul for Quaternion`: the Hamilton product, with the component
expressions exactly as written in the source. -/
noncomputable def Quaternion.mul (q rhs : Quaternion) : Quaternion :=
  { w := q.w * rhs.w - q.x * rhs.x - q.y * rhs.y - q.z * rhs.z
  , x := q.x * rhs.w + q.w * rhs.x - q.z * rhs.y + q.y * rhs.z
  , y := q.y * rhs.w + q.z * rhs.x + q.w * rhs.y - q.x * rhs.z
  , z := q.z * rhs.w - q.y * rhs.x + q.x * rhs.y + q.w * rhs.z }

/-- `impl Mul<f64> for Quaternion`: componentwise scaling. -/
noncomputable def Quaternion.smul (q : Quaternion) (rhs : ℝ) : Quaternion :=
  { w := q.w * rhs, x := q.x * rhs, y := q.y * rhs, z := q.z * rhs }

/-- `Quaternion::normalized`: panics (`none`) when the norm is zero, else
scales by `1.0 / norm`. -/
noncomputable def Quaternion.normalized (q : Quaternion) : Option Quaternion :=
  if q.norm = 0 then none else some (q.smul (1 / q.norm))

/-!
Concrete inputs used by the claim theorems.
-/

/-- The scenario-S3 Bag point-cloud message: header
`{seq=0, sec=0, nsec=0, frame_id=""}`, `height=1`, `width=2`, zero fields,
`is_bigendian=0`, `point_step=0`, `row_step=0`, `data_len=0`, `is_dense=1`. -/
def s3BagMessage : List Nat :=
  le32 0 ++ le32 0 ++ le32 0 ++ le32 0 ++ le32 1 ++ le32 2 ++ le32 0 ++
    [0] ++ le32 0 ++ le32 0 ++ le32 0 ++ [1]

/-- The point cloud the S3 message decodes to. -/
def s3Cloud : PointCloud2 :=
  { header := { seq := 0, stamp := { sec := 0, nanosec := 0 }, frame_id := [] },
    height := 1, width := 2, fields := [], is_bigendian := false,
    point_step := 0, row_step := 0, data := [], is_dense := true }

/-- A UVT file content whose single trajectory line has six values. -/
def uvtContentOk : List Char :=
  "VTK".data ++ '\n' :: TRAJ_DELIM ++ '\n' :: "frame_id : base".data ++
    '\n' :: "1,2,3,0,0,0".data

/-- The same UVT file content with only five values on the trajectory line. -/
def uvtContentBad : List Char :=
  "VTK".data ++ '\n' :: TRAJ_DELIM ++ '\n' :: "frame_id : base".data ++
    '\n' :: "1,2,3,4,5".data

/-- A point cloud with a single FLOAT64 field and one 8-byte point. -/
def float64Cloud : PointCloud2 :=
  { header := { seq := 0, stamp := { sec := 0, nanosec := 0 }, frame_id := [] },
    height := 1, width := 1,
    fields := [{ name := [0x64], offset := 0, datatype := .FLOAT64, count := 1 }],
    is_bigendian := false, point_step := 8, row_step := 8,
    data := [0, 0, 0, 0, 0, 0, 0, 0], is_dense := true }

/-- A point cloud with a single UINT16 field and one 2-byte point. -/
def uint16Cloud : PointCloud2 :=
  { header := { seq := 0, stamp := { sec := 0, nanosec := 0 }, frame_id := [] },
    height := 1, width := 1,
    fields := [{ name := [0x75], offset := 0, datatype := .UINT16, count := 1 }],
    is_bigendian := false, point_step := 2, row_step := 2,
    data := [0, 0], is_dense := true }

/-!
Helper lemmas.
-/

@[simp]
theorem RustResult.bind_ok {α β : Type} (a : α) (f : α → RustResult β) :
    (RustResult.ok a).bind f = f a := rfl

@[simp]
theorem RustResult.bind_err {α β : Type} (e : ErrKind) (f : α → RustResult β) :
    (RustResult.err e).bind f = .err e := rfl

@[simp]
theorem RustResult.bind_panicked {α β : Type} (m : String) (f : α → RustResult β) :
    (RustResult.panicked m).bind f = .panicked m := rfl

/-- An `unwrapped` result is never a returned `Err`. -/
theorem RustResult.unwrapped_ne_err {α : Type} (r : RustResult α) (k : ErrKind) :
    r.unwrapped ≠ .err k := by
  cases r <;> simp [RustResult.unwrapped]

/-- Collecting results none of which is a returned `Err` never yields a
returned `Err`. -/
theorem collectResults_ne_err {α : Type} (l : List (RustResult α))
    (h : ∀ r ∈ l, ∀ k, r ≠ .err k) (k : ErrKind) :
    collectResults l ≠ .err k := by
  induction l with
  | nil => simp [collectResults]
  | cons r rs ih =>
    intro hc
    have hr : ∀ k, r ≠ .err k := h r (by simp)
    have hrs : ∀ x ∈ rs, ∀ k2, x ≠ .err k2 := fun x hx => h x (by simp [hx])
    cases r with
    | ok a =>
      simp only [collectResults, RustResult.bind_ok] at hc
      cases hcr : collectResults rs with
      | ok l2 => rw [hcr] at hc; simp [RustResult.bind] at hc
      | err k2 =>
        rw [hcr] at hc
        simp only [RustResult.bind_err, RustResult.err.injEq] at hc
        subst hc
        exact ih hrs hcr
      | panicked m => rw [hcr] at hc; simp [RustResult.bind] at hc
    | err e => exact hr e rfl
    | panicked m => simp [collectResults] at hc

/-!
Claim theorems.
-/

/-- Claim C10 (code_bug evidence): `seek` on the one-byte buffer `[7]`
returns the byte at position 0 and `None` at position 2, but panics at
position 1 — the buffer length — because the guard uses `>` where the spec
requires peek to be total and return `None` there. -/
theorem seek_at_buffer_length_panics :
    MessageDataBuffer.seek ⟨[7], 0⟩ 0 = .ok (some 7) ∧
    MessageDataBuffer.seek ⟨[7], 0⟩ 1 = .panicked "index out of bounds" ∧
    MessageDataBuffer.seek ⟨[7], 0⟩ 2 = .ok none := by
  decide

/-- Claim C7: the Bag backend's aligned reader variants (modelled from the
spec, being absent from `src/`) ignore the alignment argument: on every
alignment and every buffer state they return the very same result and
final cursor as the unaligned forms. -/
theorem bag_aligned_variants_passthrough (next_alignment : Nat) (buf : MessageDataBuffer) :
    BagDeserializer.read_lp_string_aligned next_alignment buf = buf.read_lp_string ∧
    BagDeserializer.read_byte_aligned next_alignment buf = buf.read_byte :=
  ⟨rfl, rfl⟩

/-- Claim C8: conjugation is an involution, and the Hamilton product of a
quaternion with its conjugate has exactly zero x, y, z components and `w`
equal to the squared length. -/
theorem quaternion_conjugate_product_spec (q : Quaternion) :
    q.conjugate.conjugate = q ∧
    (q.mul q.conjugate).x = 0 ∧
    (q.mul q.conjugate).y = 0 ∧
    (q.mul q.conjugate).z = 0 ∧
    (q.mul q.conjugate).w = q.square_len := by
  obtain ⟨x, y, z, w⟩ := q
  refine ⟨?_, ?_, ?_, ?_, ?_⟩ <;>
    simp [Quaternion.conjugate, Quaternion.mul, Quaternion.square_len] <;> ring

/-- Claim C9: `normalized` fails (panics) exactly when the norm is zero, and
for positive norm it returns the quaternion scaled by `1/norm`, whose norm
is exactly 1. -/
theorem quaternion_normalized_spec (q : Quaternion) :
    (q.normalized = none ↔ q.norm = 0) ∧
    (0 < q.norm →
      q.normalized = some (q.smul (1 / q.norm)) ∧ ∀ u, q.normalized = some u → u.norm = 1) := by
  constructor
  · unfold Quaternion.normalized
    split <;> simp_all
  · intro hpos
    have hne : q.norm ≠ 0 := ne_of_gt hpos
    have hok : q.normalized = some (q.smul (1 / q.norm)) := by
      unfold Quaternion.normalized
      simp [hne]
    refine ⟨hok, fun u hu => ?_⟩
    rw [hok] at hu
    obtain rfl : q.smul (1 / q.norm) = u := Option.some.inj hu
    have hL : (0:ℝ) ≤ q.square_len := by
      have hw := mul_self_nonneg q.w
      have hx := mul_self_nonneg q.x
      have hy := mul_self_nonneg q.y
      have hz := mul_self_nonneg q.z
      unfold Quaternion.square_len
      linarith
    have hsq : q.norm * q.norm = q.square_len := Real.mul_self_sqrt hL
    have hsl : (q.smul (1 / q.norm)).square_len = 1 := by
      have expand : (q.smul (1 / q.norm)).square_len
          = (1 / q.norm) * (1 / q.norm) * (q.norm * q.norm) := by
        rw [hsq]
        unfold Quaternion.smul Quaternion.square_len
        ring
      rw [expand]
      field_simp
    show Real.sqrt (q.smul (1 / q.norm)).square_len = 1
    rw [hsl, Real.sqrt_one]

/-- Witness for claim C9 at the unit quaternion `(0, 0, 0, 1)`. -/
theorem quaternion_normalized_spec_witness :
    0 < Quaternion.norm ⟨0, 0, 0, 1⟩ ∧
    (Quaternion.normalized ⟨0, 0, 0, 1⟩ = none ↔ Quaternion.norm ⟨0, 0, 0, 1⟩ = 0) ∧
    (Quaternion.normalized ⟨0, 0, 0, 1⟩
        = some (Quaternion.smul ⟨0, 0, 0, 1⟩ (1 / Quaternion.norm ⟨0, 0, 0, 1⟩)) ∧
      ∀ u, Quaternion.normalized ⟨0, 0, 0, 1⟩ = some u → u.norm = 1) := by
  have hpos : 0 < Quaternion.norm ⟨0, 0, 0, 1⟩ := by
    unfold Quaternion.norm Quaternion.square_len
    norm_num
  exact ⟨hpos, (quaternion_normalized_spec _).1, (quaternion_normalized_spec _).2 hpos⟩

/-- Claim C3 (code_bug evidence): the S3 message parses without error to a
cloud with `point_step = 0` and empty data, but `n_points` — the data
length divided by `point_step` — panics with a division by zero instead of
yielding 0. -/
theorem s3_message_parses_but_n_points_panics :
    bagParsePointcloud s3BagMessage = .ok s3Cloud ∧
    s3Cloud.point_step = 0 ∧
    s3Cloud.data = [] ∧
    s3Cloud.n_points = .panicked "attempt to divide by zero" := by
  decide

/-- Counterexample for claim C1: on the wire bytes `len=3, "a\0\0"`, the
MCAP string reader returns `"a"` — `trim_end_matches` removes every
trailing NUL — while trimming "a single trailing NUL" as the claim states
would return `"a\0"`. -/
theorem mcap_lp_string_not_single_trim :
    McapDeserializer.read_lp_string_aligned 4 ⟨[3, 0, 0, 0, 97, 0, 0, 9], 0⟩
      = .ok ([97], ⟨[3, 0, 0, 0, 97, 0, 0, 9], 8⟩) ∧
    trimSingleNulSpec [97, 0, 0] = [97, 0] ∧
    ([97] : List Nat) ≠ [97, 0] := by
  decide

/-- Counterexample for claim C2: a cloud whose single field is FLOAT64 — a
datatype the claim says is promoted to `f64` — makes `points()` panic
(`panic!("Unsupported datatype: ...")`), not decode and not return an
`UNSUPPORTED_FIELD_TYPE` error. -/
theorem points_float64_field_panics :
    float64Cloud.points = .panicked "Unsupported datatype" := by
  decide

/-- Counterexample for claim C5: with no connection matching the map topic,
`retrieve_topic_messages` panics on `topic_conns[0]` instead of returning a
`TOPIC_NOT_FOUND` error, and `read_mcap` with no matching messages panics
while selecting the last point cloud. -/
theorem missing_topic_panics_counterexample :
    retrieveTopicMessages
        { connections := [{ topic := "other", id := 7 }],
          chunks := [[{ conn_id := 7, data := [1] }]] } "/map"
      = .panicked "index out of bounds" ∧
    readMcapModel [{ topic := "other", data := [0] }] "/map" "/odom"
      = .panicked "attempt to subtract with overflow" := by
  decide

/-- A slice at a layout split: slicing exactly the middle segment of
`pre ++ (mid ++ post)` from position `pre.length` yields `mid` and advances
the cursor past it. -/
theorem slice_layout (pre mid post : List Nat) (n : Nat) (hn : n = mid.length) :
    MessageDataBuffer.slice ⟨pre ++ (mid ++ post), pre.length⟩ n
      = some (mid, ⟨pre ++ (mid ++ post), pre.length + n⟩) := by
  subst hn
  unfold MessageDataBuffer.slice
  rw [if_neg (by simp only [List.length_append]; omega)]
  rw [List.drop_left, List.take_left]

/-- `leVal` inverts `le32` below `2^32`. -/
theorem leVal_le32 (v : Nat) (hv : v < 2 ^ 32) : leVal (le32 v) = v := by
  simp only [leVal, le32]
  omega

/-- Reading a `u32` at a layout split yields the encoded value. -/
theorem read_u32_le_layout (pre post : List Nat) (v : Nat) (hv : v < 2 ^ 32) :
    MessageDataBuffer.read_u32_le ⟨pre ++ (le32 v ++ post), pre.length⟩
      = .ok (v, ⟨pre ++ (le32 v ++ post), pre.length + 4⟩) := by
  unfold MessageDataBuffer.read_u32_le
  rw [slice_layout pre (le32 v) post 4 (by simp [le32])]
  simp [leVal_le32 v hv]

/-- Reading a length-prefixed string at a layout split yields the string
bytes and leaves the cursor right after them. -/
theorem read_lp_string_layout (pre name post : List Nat) (hL : name.length < 2 ^ 32)
    (hutf : validUtf8 name = true) :
    MessageDataBuffer.read_lp_string ⟨pre ++ (le32 name.length ++ (name ++ post)), pre.length⟩
      = .ok (name, ⟨pre ++ (le32 name.length ++ (name ++ post)),
                    pre.length + 4 + name.length⟩) := by
  unfold MessageDataBuffer.read_lp_string
  rw [read_u32_le_layout pre (name ++ post) name.length hL]
  simp only [RustResult.bind_ok]
  have hs : MessageDataBuffer.slice
      ⟨pre ++ (le32 name.length ++ (name ++ post)), pre.length + 4⟩ name.length
      = some (name, ⟨pre ++ (le32 name.length ++ (name ++ post)),
                     pre.length + 4 + name.length⟩) := by
    have h0 := slice_layout (pre ++ le32 name.length) name post name.length rfl
    simpa [List.append_assoc, List.length_append, le32, Nat.add_assoc] using h0
  rw [hs]
  simp [hutf]

/-- Claim C1 (amended): the MCAP `read_lp_string_aligned(A)` reads a 4-byte
little-endian length `L`, then `L` bytes, trims every trailing NUL from the
decoded string, and consumes exactly `(A - L % A) % A` pad bytes, so for
every name length — multiple of 4 or not — the following `offset : u32` is
read at the correct cursor position with the correct value. -/
theorem mcap_lp_string_aligned_layout
    (A off : Nat) (pre name pad rest : List Nat)
    (hA : 0 < A) (hL32 : name.length < 2 ^ 32)
    (hutf : validUtf8 name = true)
    (hpad : pad.length = (A - name.length % A) % A)
    (hoff : off < 2 ^ 32) :
    McapDeserializer.read_lp_string_aligned A
        ⟨pre ++ (le32 name.length ++ (name ++ (pad ++ (le32 off ++ rest)))), pre.length⟩
      = .ok (trimNulEnd name,
          ⟨pre ++ (le32 name.length ++ (name ++ (pad ++ (le32 off ++ rest)))),
           pre.length + 4 + name.length + pad.length⟩) ∧
    MessageDataBuffer.read_u32_le
        ⟨pre ++ (le32 name.length ++ (name ++ (pad ++ (le32 off ++ rest)))),
         pre.length + 4 + name.length + pad.length⟩
      = .ok (off,
          ⟨pre ++ (le32 name.length ++ (name ++ (pad ++ (le32 off ++ rest)))),
           pre.length + 4 + name.length + pad.length + 4⟩) := by
  constructor
  · unfold McapDeserializer.read_lp_string_aligned
    rw [read_lp_string_layout pre name (pad ++ (le32 off ++ rest)) hL32 hutf]
    simp only [RustResult.bind_ok]
    rw [if_neg (by omega)]
    by_cases hp : (A - name.length % A) % A = 0
    · have hpadnil : pad = [] := List.length_eq_zero.mp (by rw [hpad, hp])
      subst hpadnil
      simp [hp]
    · have hppos : 0 < (A - name.length % A) % A := Nat.pos_of_ne_zero hp
      have hs : MessageDataBuffer.slice
          ⟨pre ++ (le32 name.length ++ (name ++ (pad ++ (le32 off ++ rest)))),
           pre.length + 4 + name.length⟩ ((A - name.length % A) % A)
          = some (pad, ⟨pre ++ (le32 name.length ++ (name ++ (pad ++ (le32 off ++ rest)))),
                        pre.length + 4 + name.length + pad.length⟩) := by
        have h0 := slice_layout (pre ++ le32 name.length ++ name) pad (le32 off ++ rest)
          ((A - name.length % A) % A) hpad.symm
        simpa [List.append_assoc, List.length_append, le32, hpad,
          Nat.add_assoc, Nat.add_comm, Nat.add_left_comm] using h0
      simp [hppos, hs]
  · have h0 := read_u32_le_layout (pre ++ le32 name.length ++ name ++ pad) rest off hoff
    simpa [List.append_assoc, List.length_append, le32,
      Nat.add_assoc, Nat.add_comm, Nat.add_left_comm] using h0

/-- Witness for the amended claim C1: the single-character name `"x"`
(length 1, not a multiple of 4) under alignment 4, followed by 3 pad bytes
and the offset value 5. -/
theorem mcap_lp_string_aligned_layout_witness :
    (0:Nat) < 4 ∧ validUtf8 [120] = true ∧
    McapDeserializer.read_lp_string_aligned 4 ⟨[1, 0, 0, 0, 120, 9, 9, 9, 5, 0, 0, 0], 0⟩
      = .ok ([120], ⟨[1, 0, 0, 0, 120, 9, 9, 9, 5, 0, 0, 0], 8⟩) ∧
    MessageDataBuffer.read_u32_le ⟨[1, 0, 0, 0, 120, 9, 9, 9, 5, 0, 0, 0], 8⟩
      = .ok (5, ⟨[1, 0, 0, 0, 120, 9, 9, 9, 5, 0, 0, 0], 12⟩) := by
  have h := mcap_lp_string_aligned_layout 4 5 [] [120] [9, 9, 9] []
    (by decide) (by decide) (by decide) (by decide) (by decide)
  refine ⟨by decide, by decide, ?_, ?_⟩
  · have h1 := h.1
    simpa [le32, trimNulEnd] using h1
  · have h2 := h.2
    simpa [le32] using h2

/-- A non-FLOAT32 field value read always panics. -/
theorem readPointValue_non_float32 (dt : DataType) (buf : MessageDataBuffer)
    (h : dt ≠ .FLOAT32) :
    readPointValue dt buf = .panicked "Unsupported datatype" := by
  cases dt <;> simp_all [readPointValue]

/-- Reading one point over a field list containing a non-FLOAT32 field
always ends in a panic (either the unsupported-datatype panic or the
`unwrap` panic of an earlier failed FLOAT32 read). -/
theorem pointFromFields_non_float32 (fields : List PointField)
    (h : ∃ f ∈ fields, f.datatype ≠ .FLOAT32) :
    ∀ (acc : List (List Nat × Nat)) (buf : MessageDataBuffer),
      ∃ m, pointFromFields fields acc buf = .panicked m := by
  induction fields with
  | nil =>
    obtain ⟨f, hf, _⟩ := h
    simp at hf
  | cons f fs ih =>
    intro acc buf
    by_cases hdt : f.datatype = .FLOAT32
    · have h2 : ∃ g ∈ fs, g.datatype ≠ .FLOAT32 := by
        obtain ⟨g, hg, hgd⟩ := h
        rcases List.mem_cons.mp hg with rfl | hmem
        · exact absurd hdt hgd
        · exact ⟨g, hmem, hgd⟩
      cases hr : readPointValue f.datatype buf with
      | ok vb =>
        obtain ⟨m, hm⟩ := ih h2 (hashInsert acc f.name vb.1) vb.2
        refine ⟨m, ?_⟩
        unfold pointFromFields
        rw [hr]
        simpa using hm
      | err e =>
        rw [hdt] at hr
        exact absurd hr (by
          have := RustResult.unwrapped_ne_err (buf.read_f32_le) e
          simpa [readPointValue] using this)
      | panicked m =>
        refine ⟨m, ?_⟩
        unfold pointFromFields
        rw [hr]
        rfl
    · refine ⟨"Unsupported datatype", ?_⟩
      unfold pointFromFields
      rw [readPointValue_non_float32 f.datatype buf hdt]
      rfl

/-- Claim C2 (amended): whenever the cloud has at least one point and any
field whose datatype is not FLOAT32 — including FLOAT64 and UINT16 —
`points()` panics (it does not return an `UNSUPPORTED_FIELD_TYPE` error and
does not silently zero-fill); only FLOAT32 fields are decoded, as raw
little-endian 32-bit floats. -/
theorem points_unsupported_field_panics (pc : PointCloud2) (n : Nat)
    (hn : pc.n_points = .ok n) (hpos : 0 < n)
    (hf : ∃ f ∈ pc.fields, f.datatype ≠ .FLOAT32) :
    ∃ m, pc.points = .panicked m := by
  obtain ⟨k, rfl⟩ : ∃ k, n = k + 1 := ⟨n - 1, by omega⟩
  obtain ⟨m, hm⟩ := pointFromFields_non_float32 pc.fields hf [] (MessageDataBuffer.new pc.data)
  refine ⟨m, ?_⟩
  unfold PointCloud2.points
  rw [hn]
  simp only [RustResult.bind_ok]
  unfold pointsLoop
  rw [hm]
  rfl

/-- Witness for the amended claim C2 at a cloud with one UINT16 field and
one point. -/
theorem points_unsupported_field_panics_witness :
    uint16Cloud.n_points = .ok 1 ∧ (0:Nat) < 1 ∧
    (∃ f ∈ uint16Cloud.fields, f.datatype ≠ .FLOAT32) ∧
    (∃ m, uint16Cloud.points = .panicked m) :=
  ⟨by decide, by decide, by decide,
    points_unsupported_field_panics uint16Cloud 1 (by decide) (by decide) (by decide)⟩

/-- Claim C5 (amended): when zero connections match the requested topic the
Bag retrieval panics (out-of-bounds index on `topic_conns[0]`), and when
zero MCAP messages match the map topic `read_mcap` panics (selecting the
last of zero point clouds) — in neither case is a `TOPIC_NOT_FOUND` error
returned. -/
theorem zero_topic_match_crashes :
    (∀ (bag : BagFile) (topic : String),
        bag.connections.filter (fun c => c.topic == topic) = [] →
        retrieveTopicMessages bag topic = .panicked "index out of bounds") ∧
    (∀ (msgs : List McapMessage) (map_topic traj_topic : String),
        msgs.filter (fun m => m.topic == map_topic) = [] →
        ∃ m, readMcapModel msgs map_topic traj_topic = .panicked m) := by
  constructor
  · intro bag topic h
    simp [retrieveTopicMessages, h]
  · intro msgs mt tt h
    unfold readMcapModel retrieveMcapTopicMessages
    rw [h]
    simp only [List.map_nil, collectResults, RustResult.bind_ok]
    cases hc : collectResults
        (((msgs.filter (fun m => m.topic == tt)).map (fun m => m.data)).map
          (fun m => (mcapParseTrajectory m).unwrapped)) with
    | ok t =>
      exact ⟨"attempt to subtract with overflow", rfl⟩
    | err k =>
      exact absurd hc (collectResults_ne_err _ (by
        intro r hr k2
        obtain ⟨x, _, rfl⟩ := List.mem_map.mp hr
        exact RustResult.unwrapped_ne_err _ k2) k)
    | panicked m =>
      exact ⟨m, rfl⟩

/-- Witness for the amended claim C5 at a one-connection Bag and a
one-message MCAP stream, neither matching the requested topics. -/
theorem zero_topic_match_crashes_witness :
    retrieveTopicMessages { connections := [{ topic := "odom", id := 3 }], chunks := [] } "/map"
      = .panicked "index out of bounds" ∧
    (∃ m, readMcapModel [{ topic := "odom", data := [] }] "/map" "/odom" = .panicked m) :=
  ⟨zero_topic_match_crashes.1 _ _ (by decide),
   zero_topic_match_crashes.2 _ _ _ (by decide)⟩

/-- Claim C4 (code_bug evidence): a UVT whose single trajectory line has six
values parses to one 6-DOF pose, while five values on that line make
`read_file` panic with the 1-based block line index 2 — a crash, not a
returned `MALFORMED_TRAJ_LINE` error as the claim (and `read_file`'s own
doc comment) requires. -/
theorem read_file_five_values_panics :
    uvtReadContent uvtContentOk
      = .ok { map_blob := "VTK".data, frame_id := "base".data,
              poses := [(2, { x := 1, y := 2, z := 3, roll := 0, pitch := 0, yaw := 0 })] } ∧
    uvtReadContent uvtContentBad
      = .panicked "Line 2: expected 6 values, got 5" := by
  decide

end Uvt
